import Mathlib

/-
Verification of the libhal-cmake-util packaging recipe (src/conanfile.py).

The recipe is embedded shallowly: the option schema and defaults, the
`package` copy step, the `package_info` publish/diagnostic step and the
`package_id` identity step are translated into executable Lean definitions.
Paths are strings, a source tree is the list of its relative file paths,
and the configuration/log side effects of `package_info` are threaded
through an explicit state record.
-/

namespace LibhalCmakeUtil

/-- Joining of path components, as `os.path.join` is used in the recipe. -/
def pathJoin (a b : String) : String := a ++ "/" ++ b

/-- The two boolean options declared by `options` in src/conanfile.py. -/
structure ResolvedOptions where
  add_build_outputs : Bool
  optimize_debug_build : Bool
  deriving DecidableEq

/-- Path of the build-outputs toolchain fragment (`package_info`). -/
def build_outputs_path (pf : String) : String :=
  pathJoin pf "cmake/build_outputs.cmake"

/-- Path of the debug-optimization toolchain fragment (`package_info`). -/
def optimize_debug_build_path (pf : String) : String :=
  pathJoin pf "cmake/optimize_debug_build.cmake"

/-- Path of the core build toolchain fragment (`package_info`). -/
def build_path (pf : String) : String :=
  pathJoin pf "cmake/build.cmake"

/-- Path of the color-output toolchain fragment (`package_info`). -/
def colors_path (pf : String) : String :=
  pathJoin pf "cmake/colors.cmake"

/-- Path of the clang-tidy configuration file (`package_info`). -/
def clang_tidy_config_path (pf : String) : String :=
  pathJoin pf "cmake/clang-tidy.conf"

/-- Publish list after the first, `add_build_outputs`-gated append of
`package_info`. -/
def publishStage1 (pf : String) (o : ResolvedOptions) : List String :=
  if o.add_build_outputs then [build_outputs_path pf] else []

/-- Publish list after the second, `optimize_debug_build`-gated append of
`package_info`. -/
def publishStage2 (pf : String) (o : ResolvedOptions) : List String :=
  publishStage1 pf o ++
    (if o.optimize_debug_build then [optimize_debug_build_path pf] else [])

/-- Publish list after the unconditional append of the color fragment. -/
def publishStage3 (pf : String) (o : ResolvedOptions) : List String :=
  publishStage2 pf o ++ [colors_path pf]

/-- The full ordered list of toolchain-fragment paths appended to
`tools.cmake.cmaketoolchain:user_toolchain` by `package_info`. -/
def publishList (pf : String) (o : ResolvedOptions) : List String :=
  publishStage3 pf o ++ [build_path pf]

/-- fnmatch-style glob matching over explicit character lists, as used by the
copy helper to select source files: a star matches any sequence of
characters, every other pattern character matches exactly itself. -/
def fnmatchList : List Char → List Char → Bool
  | [], cs => cs.isEmpty
  | p :: ps, cs =>
    if p = '*' then cs.tails.any (fun t => fnmatchList ps t)
    else
      match cs with
      | [] => false
      | c :: cs' => p == c && fnmatchList ps cs'

/-- fnmatch-style glob matching on strings. -/
def fnmatch (pat s : String) : Bool := fnmatchList pat.toList s.toList

/-- Modelled from the spec: the copy helper called by `package` (its body is
in the Conan framework, not in this repository) copies every source file whose
relative path matches the pattern to its mirrored relative path under the
destination root; a pattern matching zero files is a silent no-op. -/
def copyFiles (pat dstRoot : String) (files : List String) :
    List (String × String) :=
  (files.filter (fun f => fnmatch pat f)).map (fun f => (f, pathJoin dstRoot f))

/-- The three copy invocations of `package` in src/conanfile.py, in order:
the license file into the licenses directory, then the `cmake/*.cmake` and
`cmake/*.conf` patterns mirrored under the package folder. -/
def copySet (sourceFiles : List String) (pf : String) :
    List (String × String) :=
  copyFiles "LICENSE" (pathJoin pf "licenses") sourceFiles ++
    copyFiles "cmake/*.cmake" pf sourceFiles ++
    copyFiles "cmake/*.conf" pf sourceFiles

/-- Failure mode of manifest resolution. -/
inductive ManifestError where
  | MissingSourceError
  deriving DecidableEq

/-- Modelled from the spec: the install-manifest resolver fails with
`MissingSourceError` when the required license file is absent at the source
root, before any copy occurs; otherwise it returns the copy set computed by
`package` together with the publish list computed by `package_info`. The
all-or-nothing error gate is the spec's abstraction; the copy and publish
contents are taken from src/conanfile.py. -/
def resolveManifest (sourceFiles : List String) (pf : String)
    (o : ResolvedOptions) :
    Except ManifestError (List (String × String) × List String) :=
  if "LICENSE" ∈ sourceFiles then
    Except.ok (copySet sourceFiles pf, publishList pf o)
  else
    Except.error ManifestError.MissingSourceError

/-- The option names declared by `options` in src/conanfile.py. -/
def schemaKeys : List String := ["add_build_outputs", "optimize_debug_build"]

/-- The `default_options` mapping of src/conanfile.py. -/
def default_options : List (String × Bool) :=
  [("add_build_outputs", true), ("optimize_debug_build", true)]

/-- Failure mode of option resolution. -/
inductive OptionError where
  | UnknownOptionError
  deriving DecidableEq

/-- Modelled from the spec: Conan's option-resolution machinery (not part of
this repository) overlays caller overrides on the declared defaults and fails
with `UnknownOptionError` when an override key is not declared in the schema;
the schema and defaults are those of src/conanfile.py. -/
def resolveOptions (overrides : List (String × Bool)) :
    Except OptionError (List (String × Bool)) :=
  if ∀ kv ∈ overrides, kv.fst ∈ schemaKeys then
    Except.ok (default_options.map (fun kv =>
      match overrides.lookup kv.fst with
      | some v => (kv.fst, v)
      | none => kv))
  else
    Except.error OptionError.UnknownOptionError

/-- The observable state touched by `package_info`: the
`tools.cmake.cmaketoolchain:user_toolchain` configuration list and the
informational output log. -/
structure InfoState where
  user_toolchain : List String
  log : List String
  deriving DecidableEq

/-- `self.conf_info.append(` `"tools.cmake.cmaketoolchain:user_toolchain", p)`. -/
def conf_info_append (p : String) (s : InfoState) : InfoState :=
  { s with user_toolchain := s.user_toolchain ++ [p] }

/-- `self.output.info(msg)`. -/
def output_info (msg : String) (s : InfoState) : InfoState :=
  { s with log := s.log ++ [msg] }

/-- The `package_info` method of src/conanfile.py: two option-gated appends,
two unconditional appends, then three informational lines. -/
def package_info (pf : String) (o : ResolvedOptions) (s : InfoState) :
    InfoState :=
  let s1 := if o.add_build_outputs
    then conf_info_append (build_outputs_path pf) s else s
  let s2 := if o.optimize_debug_build
    then conf_info_append (optimize_debug_build_path pf) s1 else s1
  let s3 := conf_info_append (colors_path pf) s2
  let s4 := conf_info_append (build_path pf) s3
  let s5 := output_info
    ("clang_tidy_config_path: " ++ clang_tidy_config_path pf) s4
  let s6 := output_info
    ("add_build_outputs: " ++ toString o.add_build_outputs) s5
  output_info
    ("optimize_debug_build: " ++ toString o.optimize_debug_build) s6

/-- The configuration information Conan hashes into the binary package id:
settings and stringified option values. -/
structure ConanInfo where
  settings : List (String × String)
  options : List (String × String)
  deriving DecidableEq

/-- `self.info.clear()`: clearing erases all settings and options
information. -/
def ConanInfo.clear (_i : ConanInfo) : ConanInfo :=
  { settings := [], options := [] }

/-- The `package_id` method of src/conanfile.py: it clears the info. -/
def package_id (i : ConanInfo) : ConanInfo := i.clear

/-- The info record a configuration would contribute before clearing. -/
def infoOf (settings : List (String × String)) (o : ResolvedOptions) :
    ConanInfo :=
  { settings := settings
    options := [("add_build_outputs", toString o.add_build_outputs),
                ("optimize_debug_build", toString o.optimize_debug_build)] }

/-- A pattern without stars matches exactly itself. -/
theorem fnmatchList_no_star (ps : List Char) (hps : '*' ∉ ps) (cs : List Char) :
    fnmatchList ps cs = true ↔ ps = cs := by
  induction ps generalizing cs with
  | nil => cases cs <;> simp [fnmatchList]
  | cons p ps ih =>
    have hp : p ≠ '*' := fun h => hps (h ▸ List.mem_cons_self p ps)
    have hps' : '*' ∉ ps := fun h => hps (List.mem_cons_of_mem p h)
    cases cs with
    | nil => simp [fnmatchList, hp]
    | cons c cs' =>
      simp [fnmatchList, hp, ih hps', and_comm]

/-- C1: for every package folder, the publish list of `package_info` is, in
order: the build-outputs fragment iff `add_build_outputs`, the
debug-optimization fragment iff `optimize_debug_build`, then unconditionally
the colors fragment and the build fragment; with both options true it is the
four-element list and with both options false it is the two-element list
`[colors, build]`. -/
theorem publishList_order (pf : String) :
    publishList pf ⟨true, true⟩ =
      [build_outputs_path pf, optimize_debug_build_path pf,
        colors_path pf, build_path pf] ∧
    publishList pf ⟨true, false⟩ =
      [build_outputs_path pf, colors_path pf, build_path pf] ∧
    publishList pf ⟨false, true⟩ =
      [optimize_debug_build_path pf, colors_path pf, build_path pf] ∧
    publishList pf ⟨false, false⟩ = [colors_path pf, build_path pf] ∧
    (publishList pf ⟨false, false⟩).length = 2 :=
  ⟨rfl, rfl, rfl, rfl, rfl⟩

/-- C4: resolving the empty override mapping yields exactly the declared
defaults, both true. -/
theorem resolveOptions_empty :
    resolveOptions [] = Except.ok default_options ∧
    default_options =
      [("add_build_outputs", true), ("optimize_debug_build", true)] := by
  constructor
  · simp [resolveOptions]
  · rfl

/-- C2: when the required license file is absent from the source root,
manifest resolution fails with `MissingSourceError` and produces no copy
entries; when it is present, resolution succeeds whatever script files exist,
and a copy pattern matching zero source files is a silent no-op. -/
theorem resolveManifest_error_semantics (sourceFiles : List String)
    (pf : String) (o : ResolvedOptions) :
    ("LICENSE" ∉ sourceFiles →
      resolveManifest sourceFiles pf o =
        Except.error ManifestError.MissingSourceError) ∧
    ("LICENSE" ∈ sourceFiles →
      resolveManifest sourceFiles pf o =
        Except.ok (copySet sourceFiles pf, publishList pf o)) ∧
    ∀ pat dst, (∀ f ∈ sourceFiles, fnmatch pat f = false) →
      copyFiles pat dst sourceFiles = [] := by
  refine ⟨fun h => by simp [resolveManifest, h],
    fun h => by simp [resolveManifest, h], ?_⟩
  intro pat dst h
  have hfil : sourceFiles.filter (fun f => fnmatch pat f) = [] := by
    rw [List.filter_eq_nil_iff]
    intro a ha
    simp [h a ha]
  simp [copyFiles, hfil]

/-- Witness for C2 at concrete source roots. -/
theorem resolveManifest_error_semantics_witness :
    resolveManifest ["README"] "out" ⟨true, true⟩ =
      Except.error ManifestError.MissingSourceError ∧
    resolveManifest ["LICENSE"] "out" ⟨true, true⟩ =
      Except.ok (copySet ["LICENSE"] "out", publishList "out" ⟨true, true⟩) ∧
    copyFiles "cmake/*.cmake" "out" ["LICENSE"] = [] :=
  ⟨(resolveManifest_error_semantics ["README"] "out" ⟨true, true⟩).1
      (by decide),
   (resolveManifest_error_semantics ["LICENSE"] "out" ⟨true, true⟩).2.1
      (by decide),
   (resolveManifest_error_semantics ["LICENSE"] "out" ⟨true, true⟩).2.2
      "cmake/*.cmake" "out" (by decide)⟩

/-- C3: an override whose key is not declared in the option schema makes
option resolution fail with `UnknownOptionError`, with no partial output. -/
theorem resolveOptions_unknown_key (overrides : List (String × Bool))
    (h : ∃ kv ∈ overrides, kv.fst ∉ schemaKeys) :
    resolveOptions overrides = Except.error OptionError.UnknownOptionError := by
  have hna : ¬ ∀ kv ∈ overrides, kv.fst ∈ schemaKeys := by
    rcases h with ⟨kv, hmem, hk⟩
    exact fun hall => hk (hall kv hmem)
  unfold resolveOptions
  rw [if_neg hna]

/-- Witness for C3 at the override mapping of the spec's example. -/
theorem resolveOptions_unknown_key_witness :
    resolveOptions [("bogus", true)] =
      Except.error OptionError.UnknownOptionError :=
  resolveOptions_unknown_key [("bogus", true)]
    ⟨("bogus", true), by decide, by decide⟩

/-- C5: for every override mapping whose keys all lie in the schema, option
resolution succeeds with a mapping whose key sequence is exactly the schema
key sequence, where an overridden key takes the overridden value and every
other schema key takes its default. -/
theorem resolveOptions_valid_subset (overrides : List (String × Bool))
    (h : ∀ kv ∈ overrides, kv.fst ∈ schemaKeys) :
    ∃ m, resolveOptions overrides = Except.ok m ∧
      m.map Prod.fst = schemaKeys ∧
      ∀ k ∈ schemaKeys,
        m.lookup k = (overrides.lookup k).or (default_options.lookup k) := by
  have hres : resolveOptions overrides = Except.ok (default_options.map
      (fun kv =>
        match overrides.lookup kv.fst with
        | some v => (kv.fst, v)
        | none => kv)) := by
    unfold resolveOptions
    rw [if_pos h]
  refine ⟨_, hres, ?_, ?_⟩
  · rcases h1 : overrides.lookup "add_build_outputs" with _ | v1 <;>
    rcases h2 : overrides.lookup "optimize_debug_build" with _ | v2 <;>
      simp [default_options, schemaKeys, h1, h2]
  · intro k hk
    simp only [schemaKeys, List.mem_cons, List.mem_singleton,
      List.not_mem_nil, or_false] at hk
    rcases hk with rfl | rfl <;>
    rcases h1 : overrides.lookup "add_build_outputs" with _ | v1 <;>
    rcases h2 : overrides.lookup "optimize_debug_build" with _ | v2 <;>
      simp [default_options, List.lookup, h1, h2, Option.or]

/-- Witness for C5 at a one-element valid override mapping. -/
theorem resolveOptions_valid_subset_witness :
    ∃ m, resolveOptions [("optimize_debug_build", false)] = Except.ok m ∧
      m.map Prod.fst = schemaKeys ∧
      ∀ k ∈ schemaKeys,
        m.lookup k =
          (([("optimize_debug_build", false)] :
            List (String × Bool)).lookup k).or (default_options.lookup k) :=
  resolveOptions_valid_subset [("optimize_debug_build", false)] (by decide)

/-- Membership in one copy invocation: exactly the matching source files,
each sent to its mirrored path under the destination root. -/
theorem mem_copyFiles (pat dst : String) (files : List String)
    (s d : String) :
    (s, d) ∈ copyFiles pat dst files ↔
      s ∈ files ∧ fnmatch pat s = true ∧ d = pathJoin dst s := by
  constructor
  · intro hmem
    rcases List.mem_map.mp hmem with ⟨f, hf, heq⟩
    rcases List.mem_filter.mp hf with ⟨hfile, hmatch⟩
    injection heq with h1 h2
    subst h1
    subst h2
    exact ⟨hfile, hmatch, rfl⟩
  · rintro ⟨hs, hm, rfl⟩
    exact List.mem_map.mpr ⟨s, List.mem_filter.mpr ⟨hs, hm⟩, rfl⟩

/-- The literal license pattern matches exactly the license file. -/
theorem fnmatch_license_iff (s : String) :
    fnmatch "LICENSE" s = true ↔ s = "LICENSE" := by
  unfold fnmatch
  rw [fnmatchList_no_star _ (by decide)]
  rw [String.toList_inj]
  exact eq_comm

/-- C6: the copy component of the resolved manifest is independent of the
option values, and its entries are exactly: the license file sent into the
licenses directory, and every source file matching the `cmake/*.cmake` or
`cmake/*.conf` pattern sent to its mirrored relative path under the package
folder. -/
theorem copySet_fixed (sourceFiles : List String) (pf : String)
    (o o' : ResolvedOptions) :
    Except.map Prod.fst (resolveManifest sourceFiles pf o) =
      Except.map Prod.fst (resolveManifest sourceFiles pf o') ∧
    ∀ s d, (s, d) ∈ copySet sourceFiles pf ↔
      (s ∈ sourceFiles ∧
        ((s = "LICENSE" ∧ d = pathJoin (pathJoin pf "licenses") s) ∨
          ((fnmatch "cmake/*.cmake" s = true ∨ fnmatch "cmake/*.conf" s = true)
            ∧ d = pathJoin pf s))) := by
  constructor
  · by_cases hl : "LICENSE" ∈ sourceFiles <;>
      simp [resolveManifest, hl, Except.map]
  · intro s d
    simp only [copySet, List.mem_append, mem_copyFiles, fnmatch_license_iff]
    constructor
    · rintro ((⟨hs, hlic, hd⟩ | ⟨hs, hm, hd⟩) | ⟨hs, hm, hd⟩)
      · exact ⟨hs, Or.inl ⟨hlic, hd⟩⟩
      · exact ⟨hs, Or.inr ⟨Or.inl hm, hd⟩⟩
      · exact ⟨hs, Or.inr ⟨Or.inr hm, hd⟩⟩
    · rintro ⟨hs, ⟨hlic, hd⟩ | ⟨hm | hm, hd⟩⟩
      · exact Or.inl (Or.inl ⟨hs, hlic, hd⟩)
      · exact Or.inl (Or.inr ⟨hs, hm, hd⟩)
      · exact Or.inr ⟨hs, hm, hd⟩

/-- C7: manifest resolution is deterministic (equal inputs give value-equal
outputs, with no dependence on prior calls or global state), and each stage
of the publish list extends the previous one, so no entry is ever removed
once appended. -/
theorem resolveManifest_deterministic (f1 f2 : List String) (p1 p2 : String)
    (o1 o2 : ResolvedOptions) (pf : String) (o : ResolvedOptions)
    (hf : f1 = f2) (hp : p1 = p2) (ho : o1 = o2) :
    resolveManifest f1 p1 o1 = resolveManifest f2 p2 o2 ∧
    (∃ t, publishStage2 pf o = publishStage1 pf o ++ t) ∧
    (∃ t, publishStage3 pf o = publishStage2 pf o ++ t) ∧
    (∃ t, publishList pf o = publishStage3 pf o ++ t) := by
  subst hf
  subst hp
  subst ho
  exact ⟨rfl, ⟨_, rfl⟩, ⟨_, rfl⟩, ⟨_, rfl⟩⟩

/-- Witness for C7 at concrete equal inputs. -/
theorem resolveManifest_deterministic_witness :
    resolveManifest ["LICENSE"] "out" ⟨true, true⟩ =
      resolveManifest ["LICENSE"] "out" ⟨true, true⟩ ∧
    (∃ t, publishStage2 "out" ⟨true, true⟩ =
      publishStage1 "out" ⟨true, true⟩ ++ t) ∧
    (∃ t, publishStage3 "out" ⟨true, true⟩ =
      publishStage2 "out" ⟨true, true⟩ ++ t) ∧
    (∃ t, publishList "out" ⟨true, true⟩ =
      publishStage3 "out" ⟨true, true⟩ ++ t) :=
  resolveManifest_deterministic ["LICENSE"] ["LICENSE"] "out" "out"
    ⟨true, true⟩ ⟨true, true⟩ "out" ⟨true, true⟩ rfl rfl rfl

/-- C8: running `package_info` appends exactly the three informational lines
(the clang-tidy config path and the two option values) to the log, and the
published toolchain list is exactly the prior list extended by the publish
list — the diagnostics leave it unchanged, and the copy set is not touched
at all. -/
theorem package_info_diagnostics (pf : String) (o : ResolvedOptions)
    (s : InfoState) :
    (package_info pf o s).log = s.log ++
      ["clang_tidy_config_path: " ++ clang_tidy_config_path pf,
        "add_build_outputs: " ++ toString o.add_build_outputs,
        "optimize_debug_build: " ++ toString o.optimize_debug_build] ∧
    (package_info pf o s).user_toolchain =
      s.user_toolchain ++ publishList pf o := by
  rcases o with ⟨a, b⟩
  cases a <;> cases b <;>
    simp [package_info, publishList, publishStage3, publishStage2,
      publishStage1, conf_info_append, output_info]

/-- C9: `package_id` clears all configuration information, so any two
settings/options configurations produce the identical package identity. -/
theorem package_id_clears (s1 s2 : List (String × String))
    (o1 o2 : ResolvedOptions) :
    package_id (infoOf s1 o1) = package_id (infoOf s2 o2) := rfl

/-- C10: the copy step installs every source file matching `cmake/*.cmake`
and every source file matching `cmake/*.conf` mirrored under the package
folder; in particular `cmake/clang-tidy.conf`, when present at the source
root, is copied to its mirrored path. -/
theorem copy_pattern_coverage (sourceFiles : List String) (pf : String) :
    (∀ f ∈ sourceFiles, fnmatch "cmake/*.cmake" f = true →
      (f, pathJoin pf f) ∈ copySet sourceFiles pf) ∧
    (∀ f ∈ sourceFiles, fnmatch "cmake/*.conf" f = true →
      (f, pathJoin pf f) ∈ copySet sourceFiles pf) ∧
    ("cmake/clang-tidy.conf" ∈ sourceFiles →
      ("cmake/clang-tidy.conf", pathJoin pf "cmake/clang-tidy.conf") ∈
        copySet sourceFiles pf) := by
  have hcm : ∀ f ∈ sourceFiles, fnmatch "cmake/*.cmake" f = true →
      (f, pathJoin pf f) ∈ copySet sourceFiles pf := by
    intro f hf hm
    exact List.mem_append_left _ (List.mem_append_right _
      ((mem_copyFiles _ _ _ _ _).mpr ⟨hf, hm, rfl⟩))
  have hcf : ∀ f ∈ sourceFiles, fnmatch "cmake/*.conf" f = true →
      (f, pathJoin pf f) ∈ copySet sourceFiles pf := by
    intro f hf hm
    exact List.mem_append_right _
      ((mem_copyFiles _ _ _ _ _).mpr ⟨hf, hm, rfl⟩)
  exact ⟨hcm, hcf, fun hin => hcf _ hin (by decide)⟩

/-- Witness for C10 at a concrete source root containing the clang-tidy
configuration file. -/
theorem copy_pattern_coverage_witness :
    ("cmake/clang-tidy.conf", pathJoin "out" "cmake/clang-tidy.conf") ∈
      copySet ["LICENSE", "cmake/clang-tidy.conf"] "out" :=
  (copy_pattern_coverage ["LICENSE", "cmake/clang-tidy.conf"] "out").2.2
    (by decide)

end LibhalCmakeUtil
